import Mathlib

/-!
Shallow embedding of the PWM fading blinky sample (src/blinky/src/main.c)
and proofs of its specified properties.

The program drives four PWM LED channels: at startup it checks each
channel's readiness (returning -1 on the first unready one), zeroes all
duty cycles, then loops forever fading each LED in, holding, fading out,
and advancing to the next LED.

Modelling conventions:
- Machine integers are modelled as `Nat`.  The C arithmetic is
  `uint32_t`; with the program's constants (period 1000, 100 steps,
  brightness at most 255) no product exceeds 2^32, so `Nat` agrees with
  the C values everywhere the program runs.
- `pwm_set_dt` (the Zephyr driver call) is an external collaborator; its
  integer return value at each call is supplied by an oracle
  `drv : Nat → Int` indexed by the step (or LED) of the call, negative
  meaning failure, matching the code's `ret < 0` test.
- `k_msleep` delays have no observable state and are elided.
- Observable behaviour is captured as traces: the ordered list of
  pulse widths (or (led, period, pulse) triples) committed via
  `pwm_set_dt`, plus the error codes printed with `printk`.
-/

/-- `PWM_PERIOD_US` from main.c line 12: PWM period in microseconds. -/
def PWM_PERIOD_US : Nat := 1000

/-- `FADE_STEP_MS` from main.c line 15: sleep between fade steps. -/
def FADE_STEP_MS : Nat := 10

/-- `FADE_STEPS` from main.c line 18: number of fade steps. -/
def FADE_STEPS : Nat := 100

/-- `NUM_LEDS` from main.c line 63: size of the `pwm_leds` array (4 entries). -/
def NUM_LEDS : Nat := 4

/-- The pulse width computed inside the loop of `fade_led`
(main.c lines 75-79), parametrised by the constants `PWM_PERIOD_US`
(`period`) and `FADE_STEPS` (`stepCount`):
`fade_in = true`:  `(period * step) / stepCount`;
`fade_in = false`: `(period * (stepCount - step)) / stepCount`.
Division is C unsigned (truncating) division, i.e. `Nat` division;
`stepCount - step` never underflows because the loop keeps
`step ≤ stepCount`. -/
def pulse_width (period stepCount : Nat) (fade_in : Bool) (step : Nat) : Nat :=
  if fade_in then period * step / stepCount
  else period * (stepCount - step) / stepCount

/-- The loop of `fade_led` (main.c lines 74-88), as structural recursion on
the number of remaining iterations.  `remaining` counts the iterations the
`for` loop still has before `step` passes `stepCount`; the top-level call
uses `remaining = stepCount + 1` for `step = 0 .. stepCount` inclusive.
Each iteration computes `pulse_width`, calls `pwm_set_dt` (whose result is
`drv step`), and on `ret < 0` prints the error and returns, otherwise
sleeps and continues.  The result is the trace of pulse widths passed to
`pwm_set_dt`, in order (including the failing write itself), paired with
the error code printed by `printk`, if any.  The C function's return type
is `void`: no value reaches the caller. -/
def fade_led_go (period stepCount : Nat) (fade_in : Bool) (drv : Nat → Int) :
    Nat → Nat → List Nat × Option Int
  | _step, 0 => ([], none)
  | step, remaining + 1 =>
    let pw := pulse_width period stepCount fade_in step
    if drv step < 0 then
      ([pw], some (drv step))
    else
      let rest := fade_led_go period stepCount fade_in drv (step + 1) remaining
      (pw :: rest.1, rest.2)

/-- `fade_led` (main.c lines 70-89): runs the fade loop from `step = 0` to
`step = stepCount` inclusive.  Returns the write trace and the printed
error (the C function itself returns `void`). -/
def fade_led (period stepCount : Nat) (fade_in : Bool) (drv : Nat → Int) :
    List Nat × Option Int :=
  fade_led_go period stepCount fade_in drv 0 (stepCount + 1)

/-- `set_led_brightness` (main.c lines 96-104): computes
`pulse_width = (PWM_PERIOD_US * brightness) / 100` and passes it to
`pwm_set_dt` unconditionally.  Returns the `(period, pulseWidth)` pair
committed to the driver and the error code printed if the driver call
(result `drvRet`) failed.  The C function returns `void`. -/
def set_led_brightness (brightness : Nat) (drvRet : Int) :
    (Nat × Nat) × Option Int :=
  let pulse_width := PWM_PERIOD_US * brightness / 100
  ((PWM_PERIOD_US, pulse_width), if drvRet < 0 then some drvRet else none)

/-- `turn_off_all_leds` (main.c lines 109-114): for each LED index
`i < NUM_LEDS`, calls `pwm_set_dt(pwm_leds[i], PWM_PERIOD_US, 0)` and
discards the result (`zdrv i` is the driver's return value for the write
to LED `i`; the C code never inspects it, so the loop always performs all
`NUM_LEDS` writes).  Returns the trace of `(led, period, pulse)` writes. -/
def turn_off_all_leds (zdrv : Nat → Int) : List (Nat × Nat × Nat) :=
  (List.range NUM_LEDS).map (fun i =>
    let _ret := zdrv i
    (i, PWM_PERIOD_US, 0))

/-- Observable outcome of `main`'s startup phase (main.c lines 116-134). -/
structure StartupResult where
  failedLed : Option Nat
  retCode : Option Int
  zeroWrites : List (Nat × Nat × Nat)
  entersLoop : Bool
deriving Repr, DecidableEq

/-- Startup phase of `main` (main.c lines 122-134): for each
`i < NUM_LEDS`, if `device_is_ready` fails (`ready i = false`), print the
offending device and `return -1` before any duty-cycle write; otherwise
fall through to `turn_off_all_leds` and enter the cycling loop.  The
first unready index is the `find?` over the readiness loop. -/
def main_startup (ready : Nat → Bool) (zdrv : Nat → Int) : StartupResult :=
  match (List.range NUM_LEDS).find? (fun i => !ready i) with
  | some i => ⟨some i, some (-1), [], false⟩
  | none => ⟨none, none, turn_off_all_leds zdrv, true⟩

/-- Observable outcome of one iteration of `main`'s `while (1)` loop. -/
structure LoopIter where
  announcedLed : Nat
  fadeIn : List Nat × Option Int
  fadeOut : List Nat × Option Int
  nextLed : Nat
deriving Repr, DecidableEq

/-- One iteration of the `while (1)` loop in `main`
(main.c lines 136-153): print the current LED, fade it in, sleep 200 ms,
fade it out, advance `current_led = (current_led + 1) % NUM_LEDS`, sleep
100 ms.  `fade_led` returns `void`, so `main` performs every one of these
actions unconditionally, whatever happened inside either fade; `drvIn`
and `drvOut` are the driver oracles for the two fades. -/
def main_loop_body (current_led : Nat) (drvIn drvOut : Nat → Int) : LoopIter :=
  { announcedLed := current_led
    fadeIn := fade_led PWM_PERIOD_US FADE_STEPS true drvIn
    fadeOut := fade_led PWM_PERIOD_US FADE_STEPS false drvOut
    nextLed := (current_led + 1) % NUM_LEDS }

/-- Driver oracle that always succeeds. -/
def drvOk : Nat → Int := fun _ => 0

/-- Driver oracle that fails (with code -7) exactly at step 5. -/
def drvFailAt5 : Nat → Int := fun n => if n = 5 then -7 else 0

/-- Driver oracle that always fails with code -5. -/
def drvAllFail : Nat → Int := fun _ => -5

/-- Readiness oracle for which channels 0 and 1 are ready and channel 2
is the first unready one. -/
def readyUpTo2 : Nat → Bool := fun i => i < 2

/-- Readiness oracle for which every channel is ready. -/
def readyAll : Nat → Bool := fun _ => true

/- ### Helper lemmas about the fade loop -/

/-- When the driver never fails, the fade loop starting at `step` with
`remaining` iterations writes exactly the pulse widths of steps
`step, step+1, …, step+remaining-1` and prints no error. -/
theorem fade_led_go_ok (period stepCount : Nat) (fade_in : Bool)
    (drv : Nat → Int) :
    ∀ remaining step, (∀ j, 0 ≤ drv j) →
      fade_led_go period stepCount fade_in drv step remaining =
        ((List.range' step remaining).map (pulse_width period stepCount fade_in),
          none) := by
  intro remaining
  induction remaining with
  | zero => intro step _; simp [fade_led_go]
  | succ m ih =>
    intro step h
    rw [fade_led_go, if_neg (by exact Int.not_lt.mpr (h step)), ih (step + 1) h]
    simp [List.range'_succ]

/-- When the driver first fails at step `k` (inside the loop's range), the
fade loop starting at `step ≤ k` writes exactly the pulse widths of steps
`step, …, k` (the failing write included) and prints the error `drv k`. -/
theorem fade_led_go_fail (period stepCount : Nat) (fade_in : Bool)
    (drv : Nat → Int) (k : Nat) (hfail : drv k < 0)
    (hok : ∀ j, j < k → 0 ≤ drv j) :
    ∀ remaining step, step ≤ k → k < step + remaining →
      fade_led_go period stepCount fade_in drv step remaining =
        ((List.range' step (k + 1 - step)).map (pulse_width period stepCount fade_in),
          some (drv k)) := by
  intro remaining
  induction remaining with
  | zero => intro step hsk hk; omega
  | succ m ih =>
    intro step hsk hk
    rcases Nat.eq_or_lt_of_le hsk with heq | hlt
    · subst heq
      rw [fade_led_go, if_pos hfail]
      have hrange : step + 1 - step = 1 := by omega
      rw [hrange]
      simp [List.range'_succ]
    · have hpos : ¬ drv step < 0 := Int.not_lt.mpr (hok step hlt)
      rw [fade_led_go, if_neg hpos, ih (step + 1) hlt (by omega)]
      have hrange : k + 1 - step = (k + 1 - (step + 1)) + 1 := by omega
      rw [hrange, List.range'_succ]
      simp

/-- With a never-failing driver, `fade_led` writes the pulse widths of
steps `0, …, stepCount` in order and prints no error. -/
theorem fade_led_ok (period stepCount : Nat) (fade_in : Bool)
    (drv : Nat → Int) (h : ∀ j, 0 ≤ drv j) :
    fade_led period stepCount fade_in drv =
      ((List.range (stepCount + 1)).map (pulse_width period stepCount fade_in),
        none) := by
  rw [fade_led, fade_led_go_ok period stepCount fade_in drv (stepCount + 1) 0 h,
    List.range_eq_range']

/- ### Claim theorems -/

/-- C3: for every `stepCount ≥ 1` and `period ≥ 1`, a fully successful
`fade_led` ramp writes pulse width 0 first and exactly `period` last when
fading in, and `period` first and exactly 0 last when fading out, so the
channel is left at the exact boundary duty cycle. -/
theorem C3_endpoints (period stepCount : Nat) (drv : Nat → Int)
    (hp : 1 ≤ period) (hs : 1 ≤ stepCount) (h : ∀ j, 0 ≤ drv j) :
    (fade_led period stepCount true drv).1.head? = some 0 ∧
    (fade_led period stepCount true drv).1.getLast? = some period ∧
    (fade_led period stepCount false drv).1.head? = some period ∧
    (fade_led period stepCount false drv).1.getLast? = some 0 := by
  rw [fade_led_ok period stepCount true drv h, fade_led_ok period stepCount false drv h]
  have hpos : 0 < stepCount := hs
  have hhead : ∀ fi : Bool,
      ((List.range (stepCount + 1)).map (pulse_width period stepCount fi)).head? =
        some (pulse_width period stepCount fi 0) := by
    intro fi
    rw [List.range_eq_range', List.range'_succ]
    simp
  have hlast : ∀ fi : Bool,
      ((List.range (stepCount + 1)).map (pulse_width period stepCount fi)).getLast? =
        some (pulse_width period stepCount fi stepCount) := by
    intro fi
    rw [List.range_succ, List.map_append]
    simp [List.getLast?_concat]
  refine ⟨?_, ?_, ?_, ?_⟩
  · rw [hhead true]; simp [pulse_width]
  · rw [hlast true]; simp [pulse_width, Nat.mul_div_cancel period hpos]
  · rw [hhead false]; simp [pulse_width, Nat.mul_div_cancel period hpos]
  · rw [hlast false]; simp [pulse_width]

/-- C3 witness at period 1000, stepCount 100, an always-succeeding driver. -/
theorem C3_endpoints_witness :
    (fade_led 1000 100 true drvOk).1.head? = some 0 ∧
    (fade_led 1000 100 true drvOk).1.getLast? = some 1000 ∧
    (fade_led 1000 100 false drvOk).1.head? = some 1000 ∧
    (fade_led 1000 100 false drvOk).1.getLast? = some 0 :=
  C3_endpoints 1000 100 drvOk (by decide) (by decide) (fun _ => Int.le_refl 0)

/-- C4: for every `stepCount ≥ 1` and `period ≥ 1`, the pulse-width
sequence of a fade-in ramp is non-decreasing in the step index and that of
a fade-out ramp is non-increasing. -/
theorem C4_monotone (period stepCount s t : Nat)
    (hp : 1 ≤ period) (hs : 1 ≤ stepCount) (hst : s ≤ t) (ht : t ≤ stepCount) :
    pulse_width period stepCount true s ≤ pulse_width period stepCount true t ∧
    pulse_width period stepCount false t ≤ pulse_width period stepCount false s := by
  constructor
  · simp only [pulse_width, if_pos]
    exact Nat.div_le_div_right (Nat.mul_le_mul (Nat.le_refl period) hst)
  · simp only [pulse_width, if_neg]
    exact Nat.div_le_div_right
      (Nat.mul_le_mul (Nat.le_refl period) (Nat.sub_le_sub_left hst stepCount))

/-- C4 witness at period 1000, stepCount 100, steps 3 ≤ 7. -/
theorem C4_monotone_witness :
    pulse_width 1000 100 true 3 ≤ pulse_width 1000 100 true 7 ∧
    pulse_width 1000 100 false 7 ≤ pulse_width 1000 100 false 3 :=
  C4_monotone 1000 100 3 7 (by decide) (by decide) (by decide) (by decide)

/-- C5: for every `stepCount ≥ 1`, `period ≥ 1`, direction and step index
`s ≤ stepCount`, the computed pulse width lies within `[0, period]`, so
every duty-cycle write of a ramp respects the `pwm_set_dt` bound. -/
theorem C5_bounds (period stepCount s : Nat) (fi : Bool)
    (hp : 1 ≤ period) (hs : 1 ≤ stepCount) (hle : s ≤ stepCount) :
    0 ≤ pulse_width period stepCount fi s ∧
    pulse_width period stepCount fi s ≤ period := by
  refine ⟨Nat.zero_le _, ?_⟩
  have key : ∀ m, m ≤ stepCount → period * m / stepCount ≤ period := by
    intro m hm
    calc period * m / stepCount
        ≤ period * stepCount / stepCount :=
          Nat.div_le_div_right (Nat.mul_le_mul (Nat.le_refl period) hm)
      _ = period := Nat.mul_div_cancel period hs
  cases fi with
  | true => simpa [pulse_width] using key s hle
  | false => simpa [pulse_width] using key (stepCount - s) (Nat.sub_le _ _)

/-- C5 witness at period 1000, stepCount 100, step 42, fade-in. -/
theorem C5_bounds_witness :
    0 ≤ pulse_width 1000 100 true 42 ∧ pulse_width 1000 100 true 42 ≤ 1000 :=
  C5_bounds 1000 100 42 true (by decide) (by decide) (by decide)

/-- C6: for every direction and `stepCount ≥ 1`, a `fade_led` call whose
driver never fails performs exactly `stepCount + 1` duty-cycle writes. -/
theorem C6_write_count (period stepCount : Nat) (fi : Bool) (drv : Nat → Int)
    (hs : 1 ≤ stepCount) (h : ∀ j, 0 ≤ drv j) :
    (fade_led period stepCount fi drv).1.length = stepCount + 1 ∧
    (fade_led period stepCount fi drv).2 = none := by
  rw [fade_led_ok period stepCount fi drv h]
  simp

/-- C6 witness: period 1000, stepCount 100, fade-in, succeeding driver. -/
theorem C6_write_count_witness :
    (fade_led 1000 100 true drvOk).1.length = 101 ∧
    (fade_led 1000 100 true drvOk).2 = none :=
  C6_write_count 1000 100 true drvOk (by decide) (fun _ => Int.le_refl 0)

/-- C8: with period 1000 and stepCount 3, the fade-in ramp writes exactly
0, 333, 666, 1000 under truncating division, with exact endpoints. -/
theorem C8_truncation :
    fade_led 1000 3 true drvOk = ([0, 333, 666, 1000], none) := by decide

/-- C1 counterexample: the driver fails at step 5 of a fade-in and the
error code is printed, yet nothing is propagated to the caller: `fade_led`
is `void`, so the rest of `main`'s loop iteration (the fade-out and the
advance to the next LED) is identical to the all-success run. -/
theorem C1_counterexample :
    (fade_led 1000 100 true drvFailAt5).2 = some (-7) ∧
    (main_loop_body 1 drvFailAt5 drvOk).fadeOut =
      (main_loop_body 1 drvOk drvOk).fadeOut ∧
    (main_loop_body 1 drvFailAt5 drvOk).nextLed =
      (main_loop_body 1 drvOk drvOk).nextLed := by
  refine ⟨by decide, rfl, rfl⟩

/-- C1 (amended): if the driver first fails at step `k ≤ stepCount`, the
ramp writes exactly the pulse widths of steps `0, …, k` (no write for any
step `> k`) and prints the error code; `fade_led` returns `void`, so the
error reaches the console but not the caller. -/
theorem C1_fail_stop (period stepCount k : Nat) (fi : Bool) (drv : Nat → Int)
    (hk : k ≤ stepCount) (hfail : drv k < 0) (hok : ∀ j, j < k → 0 ≤ drv j) :
    (fade_led period stepCount fi drv).1 =
      (List.range (k + 1)).map (pulse_width period stepCount fi) ∧
    (fade_led period stepCount fi drv).2 = some (drv k) := by
  rw [fade_led, fade_led_go_fail period stepCount fi drv k hfail hok
    (stepCount + 1) 0 (Nat.zero_le k) (by omega)]
  refine ⟨?_, rfl⟩
  simp [List.range_eq_range']

/-- C1 witness: period 1000, stepCount 100, failure at step 5. -/
theorem C1_fail_stop_witness :
    (fade_led 1000 100 true drvFailAt5).1 =
      (List.range 6).map (pulse_width 1000 100 true) ∧
    (fade_led 1000 100 true drvFailAt5).2 = some (drvFailAt5 5) :=
  C1_fail_stop 1000 100 5 true drvFailAt5 (by decide) (by decide) (by decide)

/-- C2 counterexample: the fade-in driver fails at step 0 (error -5 is
printed), yet the loop iteration continues: the fade-out performs all 101
writes and the cycle advances from LED 2 to LED 3 — the cycle does not
halt at the failed channel. -/
theorem C2_counterexample :
    (main_loop_body 2 drvAllFail drvOk).fadeIn.2 = some (-5) ∧
    (main_loop_body 2 drvAllFail drvOk).fadeOut.1.length = 101 ∧
    (main_loop_body 2 drvAllFail drvOk).nextLed = 3 := by decide

/-- C2 (amended): when the fade-in ramp of a loop iteration encounters a
driver error, `main` nevertheless continues that iteration: the hold and
fade-out happen (all `FADE_STEPS + 1` writes when the fade-out driver
succeeds) and the cycle advances to the next channel. -/
theorem C2_continues (cur : Nat) (drvIn drvOut : Nat → Int)
    (hfail : ((main_loop_body cur drvIn drvOut).fadeIn.2).isSome = true)
    (hout : ∀ j, 0 ≤ drvOut j) :
    (main_loop_body cur drvIn drvOut).fadeOut.1.length = FADE_STEPS + 1 ∧
    (main_loop_body cur drvIn drvOut).fadeOut.2 = none ∧
    (main_loop_body cur drvIn drvOut).nextLed = (cur + 1) % NUM_LEDS := by
  have h := fade_led_ok PWM_PERIOD_US FADE_STEPS false drvOut hout
  refine ⟨?_, ?_, rfl⟩
  · show (fade_led PWM_PERIOD_US FADE_STEPS false drvOut).1.length = FADE_STEPS + 1
    rw [h]; simp
  · show (fade_led PWM_PERIOD_US FADE_STEPS false drvOut).2 = none
    rw [h]

/-- C2 witness: fade-in driver always failing, fade-out driver succeeding,
starting at LED 0. -/
theorem C2_continues_witness :
    (main_loop_body 0 drvAllFail drvOk).fadeOut.1.length = FADE_STEPS + 1 ∧
    (main_loop_body 0 drvAllFail drvOk).fadeOut.2 = none ∧
    (main_loop_body 0 drvAllFail drvOk).nextLed = (0 + 1) % NUM_LEDS :=
  C2_continues 0 drvAllFail drvOk (by decide) (fun _ => Int.le_refl 0)

/-- C7: if channel `i` is the first unready channel, `main` reports it,
returns -1, performs no duty-cycle write, and never enters the cycling
loop. -/
theorem C7_ready_check (ready : Nat → Bool) (zdrv : Nat → Int) (i : Nat)
    (hi : i < NUM_LEDS) (hbad : ready i = false)
    (hgood : ∀ j, j < i → ready j = true) :
    (main_startup ready zdrv).failedLed = some i ∧
    (main_startup ready zdrv).retCode = some (-1) ∧
    (main_startup ready zdrv).zeroWrites = [] ∧
    (main_startup ready zdrv).entersLoop = false := by
  have hfind : (List.range NUM_LEDS).find? (fun j => !ready j) = some i := by
    have hi4 : i < 4 := hi
    rw [show List.range NUM_LEDS = [0, 1, 2, 3] from rfl]
    interval_cases i
    · rw [List.find?_cons_of_pos _ (by simp [hbad])]
    · rw [List.find?_cons_of_neg _ (by simp [hgood 0 (by omega)]),
        List.find?_cons_of_pos _ (by simp [hbad])]
    · rw [List.find?_cons_of_neg _ (by simp [hgood 0 (by omega)]),
        List.find?_cons_of_neg _ (by simp [hgood 1 (by omega)]),
        List.find?_cons_of_pos _ (by simp [hbad])]
    · rw [List.find?_cons_of_neg _ (by simp [hgood 0 (by omega)]),
        List.find?_cons_of_neg _ (by simp [hgood 1 (by omega)]),
        List.find?_cons_of_neg _ (by simp [hgood 2 (by omega)]),
        List.find?_cons_of_pos _ (by simp [hbad])]
  unfold main_startup
  rw [hfind]
  exact ⟨rfl, rfl, rfl, rfl⟩

/-- C7 witness: channels 0 and 1 ready, channel 2 the first unready. -/
theorem C7_ready_check_witness :
    (main_startup readyUpTo2 drvOk).failedLed = some 2 ∧
    (main_startup readyUpTo2 drvOk).retCode = some (-1) ∧
    (main_startup readyUpTo2 drvOk).zeroWrites = [] ∧
    (main_startup readyUpTo2 drvOk).entersLoop = false :=
  C7_ready_check readyUpTo2 drvOk 2 (by decide) (by decide) (by decide)

/-- C9: startup zeroing is best-effort: with every channel ready the
startup outcome is independent of the zeroing driver's results, all four
zero writes are committed, and `main` enters the cycling loop regardless
of any zeroing failure. -/
theorem C9_best_effort (ready : Nat → Bool) (zdrv zdrv2 : Nat → Int)
    (h : ∀ i, i < NUM_LEDS → ready i = true) :
    main_startup ready zdrv = main_startup ready zdrv2 ∧
    (main_startup ready zdrv).entersLoop = true ∧
    (main_startup ready zdrv).zeroWrites =
      [(0, PWM_PERIOD_US, 0), (1, PWM_PERIOD_US, 0),
        (2, PWM_PERIOD_US, 0), (3, PWM_PERIOD_US, 0)] := by
  have hfind : (List.range NUM_LEDS).find? (fun j => !ready j) = none := by
    rw [show List.range NUM_LEDS = [0, 1, 2, 3] from rfl]
    rw [List.find?_cons_of_neg _ (by simp [h 0 (by decide)]),
      List.find?_cons_of_neg _ (by simp [h 1 (by decide)]),
      List.find?_cons_of_neg _ (by simp [h 2 (by decide)]),
      List.find?_cons_of_neg _ (by simp [h 3 (by decide)])]
    rfl
  unfold main_startup
  rw [hfind]
  exact ⟨rfl, rfl, rfl⟩

/-- C9 witness: all channels ready, every zeroing write failing (-5)
versus every one succeeding. -/
theorem C9_best_effort_witness :
    main_startup readyAll drvAllFail = main_startup readyAll drvOk ∧
    (main_startup readyAll drvAllFail).entersLoop = true ∧
    (main_startup readyAll drvAllFail).zeroWrites =
      [(0, PWM_PERIOD_US, 0), (1, PWM_PERIOD_US, 0),
        (2, PWM_PERIOD_US, 0), (3, PWM_PERIOD_US, 0)] :=
  C9_best_effort readyAll drvAllFail drvOk (fun _ _ => rfl)

/-- C10: for every brightness `b ≤ 255`, `set_led_brightness` commits the
pair `(PWM_PERIOD_US, PWM_PERIOD_US * b / 100)` to the driver with no
clamping; for `b > 100` the pulse width strictly exceeds the period
(violating the `pwm_set_dt` bound), while for `b ≤ 100` it stays within
`[0, period]`. -/
theorem C10_no_clamp (b : Nat) (r : Int) (hb : b ≤ 255) :
    (set_led_brightness b r).1 = (PWM_PERIOD_US, PWM_PERIOD_US * b / 100) ∧
    (100 < b → PWM_PERIOD_US < (set_led_brightness b r).1.2) ∧
    (b ≤ 100 → (set_led_brightness b r).1.2 ≤ PWM_PERIOD_US) := by
  refine ⟨rfl, ?_, ?_⟩
  · intro h100
    show (1000 : Nat) < 1000 * b / 100
    omega
  · intro h100
    show 1000 * b / 100 ≤ (1000 : Nat)
    omega

/-- C10 witness: brightness 150 (> 100) with a failing driver result. -/
theorem C10_no_clamp_witness :
    (set_led_brightness 150 (-3)).1 = (PWM_PERIOD_US, PWM_PERIOD_US * 150 / 100) ∧
    (100 < 150 → PWM_PERIOD_US < (set_led_brightness 150 (-3)).1.2) ∧
    (150 ≤ 100 → (set_led_brightness 150 (-3)).1.2 ≤ PWM_PERIOD_US) :=
  C10_no_clamp 150 (-3) (by decide)
